import Mathlib

/-
Verification of the kvm_backup repository (shallow embedding).

The embedding models the code of `src/scheduler.py`, `src/backup_manager.py`
and `src/models.py`.  Python `datetime` values are modelled by a record of
calendar fields with the proleptic Gregorian calendar (the calendar Python's
`datetime` implements); `datetime.isoformat`/`fromisoformat` form a bijection
on datetimes, so serialised timestamps are modelled by the datetime itself.
Python exceptions are modelled by `Option`/`Except`; external effects
(libvirt, SSH, the filesystem) are modelled by explicit oracle environments,
and observable calls (snapshot create/delete, log lines) by event traces.
-/

namespace KvmBackup

/-- Leap year as decided by Python's `datetime` (proleptic Gregorian). -/
def isLeap (y : Nat) : Bool :=
  (y % 4 == 0 && y % 100 != 0) || y % 400 == 0

/-- Number of days in month `m` of year `y` (months are 1-based). -/
def daysInMonth (y m : Nat) : Nat :=
  if m == 2 then (if isLeap y then 29 else 28)
  else if m == 4 || m == 6 || m == 9 || m == 11 then 30
  else 31

/-- A Python `datetime.datetime` value: calendar fields, microsecond precision. -/
structure DateTime where
  year : Nat
  month : Nat
  day : Nat
  hour : Nat
  minute : Nat
  second : Nat
  microsecond : Nat
deriving Repr, DecidableEq

/-- Strict comparison of datetimes: field-lexicographic, as Python compares
`datetime` values. -/
def DateTime.blt (a b : DateTime) : Bool :=
  if a.year ≠ b.year then a.year < b.year
  else if a.month ≠ b.month then a.month < b.month
  else if a.day ≠ b.day then a.day < b.day
  else if a.hour ≠ b.hour then a.hour < b.hour
  else if a.minute ≠ b.minute then a.minute < b.minute
  else if a.second ≠ b.second then a.second < b.second
  else a.microsecond < b.microsecond

/-- Non-strict comparison of datetimes (Python `<=`). -/
def DateTime.ble (a b : DateTime) : Bool :=
  a.blt b || a == b

/-- Python's `d.replace(hour=h, minute=m, second=0, microsecond=0)`:
the replacement raises `ValueError` unless `h ≤ 23` and `m ≤ 59`. -/
def DateTime.replaceTime (d : DateTime) (h m : Nat) : Option DateTime :=
  if h ≤ 23 ∧ m ≤ 59 then
    some { d with hour := h, minute := m, second := 0, microsecond := 0 }
  else none

/-- The day after the date of `d` (time fields unchanged), implementing
Python's `timedelta(days=1)` step on the calendar. -/
def DateTime.nextDay (d : DateTime) : DateTime :=
  if d.day < daysInMonth d.year d.month then { d with day := d.day + 1 }
  else if d.month < 12 then { d with month := d.month + 1, day := 1 }
  else { d with year := d.year + 1, month := 1, day := 1 }

/-- `d + timedelta(days=n)`. -/
def DateTime.addDays (d : DateTime) : Nat → DateTime
  | 0 => d
  | n + 1 => (DateTime.addDays d n).nextDay

/-- Days before January 1 of year `y` in the proleptic Gregorian calendar
(so `toOrdinal` matches Python's `date.toordinal`). -/
def daysBeforeYear (y : Nat) : Nat :=
  365 * (y - 1) + ((y - 1) / 4 - (y - 1) / 100) + (y - 1) / 400

/-- Days in year `y` strictly before month `m`. -/
def daysBeforeMonth (y m : Nat) : Nat :=
  (List.range (m - 1)).foldl (fun acc k => acc + daysInMonth y (k + 1)) 0

/-- Python's `date.toordinal`: day 1 is January 1 of year 1. -/
def DateTime.toOrdinal (d : DateTime) : Nat :=
  daysBeforeYear d.year + daysBeforeMonth d.year d.month + d.day

/-- Python's `datetime.weekday()`: Monday is 0, Sunday is 6. -/
def DateTime.weekday (d : DateTime) : Nat :=
  (d.toOrdinal + 6) % 7

/-- Split a character list on `:` (Python `str.split(':')`). -/
def splitColon : List Char → List Char → List (List Char)
  | [], acc => [acc.reverse]
  | c :: rest, acc =>
    if c = ':' then acc.reverse :: splitColon rest []
    else splitColon rest (c :: acc)

/-- Python `int(s)` on the non-negative digit strings the schedule formats
use (other accepted `int` spellings such as a leading sign are not produced
by any valid schedule spec and are modelled as a parse failure). -/
def parseNatAux : List Char → Nat → Option Nat
  | [], acc => some acc
  | c :: rest, acc =>
    if '0' ≤ c ∧ c ≤ '9' then parseNatAux rest (acc * 10 + (c.toNat - '0'.toNat))
    else none

/-- Parse a digit string; empty input is a `ValueError`. -/
def parseNat : List Char → Option Nat
  | [] => none
  | cs => parseNatAux cs 0

/-- Python `str.lower()` on ASCII. -/
def lowerChars (cs : List Char) : List Char :=
  cs.map fun c =>
    if 'A' ≤ c ∧ c ≤ 'Z' then Char.ofNat (c.toNat + 32) else c

/-- The weekday-name table of `ScheduledBackup._calculate_next_run`
(`src/scheduler.py` lines 52-54); an absent name is a `KeyError`. -/
def dayNameIndex (s : List Char) : Option Nat :=
  if s = "monday".toList then some 0
  else if s = "tuesday".toList then some 1
  else if s = "wednesday".toList then some 2
  else if s = "thursday".toList then some 3
  else if s = "friday".toList then some 4
  else if s = "saturday".toList then some 5
  else if s = "sunday".toList then some 6
  else none

/-- Daily branch of `_calculate_next_run` (`src/scheduler.py` lines 38-43):
the slot today at `hour:minute`, plus one day if that already elapsed. -/
def calcDaily (hour minute : Nat) (now : DateTime) : Option DateTime :=
  (now.replaceTime hour minute).map fun next0 =>
    if next0.ble now then next0.addDays 1 else next0

/-- Weekly branch of `_calculate_next_run` (`src/scheduler.py` lines 45-60):
`days_ahead = target_day - now.weekday()`, incremented by 7 when ≤ 0,
added to today's slot at `hour:minute`. -/
def calcWeekly (targetDay hour minute : Nat) (now : DateTime) : Option DateTime :=
  (now.replaceTime hour minute).map fun next0 =>
    let daysAhead : Int := (targetDay : Int) - (now.weekday : Int)
    let daysAhead := if daysAhead ≤ 0 then daysAhead + 7 else daysAhead
    next0.addDays daysAhead.toNat

/-- Monthly branch of `_calculate_next_run` (`src/scheduler.py` lines 62-71):
the slot at `day hour:minute` of the current month; if it elapsed, the same
slot of the next month.  Python's `replace` raises `ValueError` when the
requested day does not exist in the month the slot lands in. -/
def calcMonthly (day hour minute : Nat) (now : DateTime) : Option DateTime :=
  if 1 ≤ day ∧ day ≤ daysInMonth now.year now.month ∧ hour ≤ 23 ∧ minute ≤ 59 then
    let next0 : DateTime :=
      { now with day := day, hour := hour, minute := minute,
                 second := 0, microsecond := 0 }
    if next0.ble now then
      if now.month == 12 then
        some { next0 with year := now.year + 1, month := 1 }
      else
        if day ≤ daysInMonth now.year (now.month + 1) then
          some { next0 with month := now.month + 1 }
        else none
    else some next0
  else none

/-- `ScheduledBackup._calculate_next_run` (`src/scheduler.py` lines 34-73),
with `datetime.now()` passed explicitly.  `none` models a raised exception:
a parse failure of `schedule_time`, an unknown day name, an out-of-range
`replace`, or the `UnboundLocalError` on an unknown `schedule_type`. -/
def calcNextRun (scheduleType scheduleTime : String) (now : DateTime) :
    Option DateTime :=
  if scheduleType = "daily" then
    match splitColon scheduleTime.toList [] with
    | [hs, ms] =>
      match parseNat hs, parseNat ms with
      | some hour, some minute => calcDaily hour minute now
      | _, _ => none
    | _ => none
  else if scheduleType = "weekly" then
    match splitColon scheduleTime.toList [] with
    | dayName :: hs :: ms :: _ =>
      match dayNameIndex (lowerChars dayName), parseNat hs, parseNat ms with
      | some targetDay, some hour, some minute => calcWeekly targetDay hour minute now
      | _, _, _ => none
    | _ => none
  else if scheduleType = "monthly" then
    match splitColon scheduleTime.toList [] with
    | [ds, hs, ms] =>
      match parseNat ds, parseNat hs, parseNat ms with
      | some day, some hour, some minute => calcMonthly day hour minute now
      | _, _, _ => none
    | _ => none
  else none

/-- A `ScheduledBackup` object (`src/scheduler.py` lines 18-32).  `last_run`
and `next_run` may be `None`.  Timestamps serialised with `isoformat` are
modelled by the `DateTime` itself (`isoformat`/`fromisoformat` is a
bijection on datetimes). -/
structure ScheduledBackup where
  id : String
  name : String
  vm_names : List String
  schedule_type : String
  schedule_time : String
  backup_mode : String
  enabled : Bool
  last_run : Option DateTime
  next_run : Option DateTime
  status : String
  created_at : DateTime
deriving Repr, DecidableEq

/-- `ScheduledBackup.__init__` (lines 18-32): `last_run = None`,
`next_run = self._calculate_next_run()`, `status = "scheduled"`,
`created_at = datetime.now()`.  `none` models the constructor raising from
`_calculate_next_run`. -/
def ScheduledBackup.init (id name : String) (vm_names : List String)
    (schedule_type schedule_time backup_mode : String) (enabled : Bool)
    (now : DateTime) : Option ScheduledBackup :=
  (calcNextRun schedule_type schedule_time now).map fun nr =>
    { id := id, name := name, vm_names := vm_names,
      schedule_type := schedule_type, schedule_time := schedule_time,
      backup_mode := backup_mode, enabled := enabled,
      last_run := none, next_run := some nr,
      status := "scheduled", created_at := now }

/-- The dictionary produced by `ScheduledBackup.to_dict` (lines 80-93):
same fields, with `last_run`/`next_run` serialised to an iso string or
`None`. -/
structure ScheduledBackupDict where
  id : String
  name : String
  vm_names : List String
  schedule_type : String
  schedule_time : String
  backup_mode : String
  enabled : Bool
  last_run : Option DateTime
  next_run : Option DateTime
  status : String
  created_at : DateTime
deriving Repr, DecidableEq

/-- `ScheduledBackup.to_dict` (lines 80-93). -/
def ScheduledBackup.to_dict (s : ScheduledBackup) : ScheduledBackupDict :=
  { id := s.id, name := s.name, vm_names := s.vm_names,
    schedule_type := s.schedule_type, schedule_time := s.schedule_time,
    backup_mode := s.backup_mode, enabled := s.enabled,
    last_run := s.last_run, next_run := s.next_run,
    status := s.status, created_at := s.created_at }

/-- `ScheduledBackup.from_dict` (lines 95-112): runs the constructor
(which recomputes `next_run` at load time), then overwrites `last_run` and
`next_run` only when the stored value is truthy, and always overwrites
`status` and `created_at`. -/
def ScheduledBackup.from_dict (data : ScheduledBackupDict) (loadNow : DateTime) :
    Option ScheduledBackup :=
  (ScheduledBackup.init data.id data.name data.vm_names data.schedule_type
      data.schedule_time data.backup_mode data.enabled loadNow).map fun sb0 =>
    let sb1 := match data.last_run with
      | some t => { sb0 with last_run := some t }
      | none => sb0
    let sb2 := match data.next_run with
      | some t => { sb1 with next_run := some t }
      | none => sb1
    { sb2 with status := data.status, created_at := data.created_at }

/-- The scheduler's map `scheduled_backups : Dict[str, ScheduledBackup]`,
as an association list in insertion order (Python dicts preserve it). -/
def SchedMap := List (String × ScheduledBackup)

/-- Python `backup_id in self.scheduled_backups`. -/
def mapMember (m : List (String × ScheduledBackup)) (k : String) : Bool :=
  m.any fun p => p.1 == k

/-- Python `self.scheduled_backups[backup_id]`. -/
def mapLookup (m : List (String × ScheduledBackup)) (k : String) :
    Option ScheduledBackup :=
  (m.find? fun p => p.1 == k).map Prod.snd

/-- In-place replacement of the value stored under an existing key. -/
def mapSet (m : List (String × ScheduledBackup)) (k : String)
    (v : ScheduledBackup) : List (String × ScheduledBackup) :=
  m.map fun p => if p.1 == k then (k, v) else p

/-- `BackupScheduler.get_due_backups` (lines 198-210): the definitions that
are enabled, not `running`, and whose `next_run` is truthy and `<= now`. -/
def get_due_backups (scheduled_backups : List (String × ScheduledBackup))
    (now : DateTime) : List ScheduledBackup :=
  (scheduled_backups.map Prod.snd).filter fun b =>
    b.enabled && !(b.status == "running") &&
      (match b.next_run with
       | some t => t.ble now
       | none => false)

/-- One keyword argument to `BackupScheduler.update_scheduled_backup`.
Each constructor is a key naming an attribute of `ScheduledBackup`
(for which `hasattr` is true) with its new value; `unknown` is a key
naming no attribute (`hasattr` false). -/
inductive AttrUpdate where
  | id (v : String)
  | name (v : String)
  | vm_names (v : List String)
  | schedule_type (v : String)
  | schedule_time (v : String)
  | backup_mode (v : String)
  | enabled (v : Bool)
  | last_run (v : Option DateTime)
  | next_run (v : Option DateTime)
  | status (v : String)
  | created_at (v : DateTime)
  | unknown (key : String)
deriving Repr, DecidableEq

/-- The Python key string of a keyword argument. -/
def AttrUpdate.keyName : AttrUpdate → String
  | .id _ => "id"
  | .name _ => "name"
  | .vm_names _ => "vm_names"
  | .schedule_type _ => "schedule_type"
  | .schedule_time _ => "schedule_time"
  | .backup_mode _ => "backup_mode"
  | .enabled _ => "enabled"
  | .last_run _ => "last_run"
  | .next_run _ => "next_run"
  | .status _ => "status"
  | .created_at _ => "created_at"
  | .unknown k => k

/-- Whether the kwarg's key names no attribute (`hasattr` returns false). -/
def AttrUpdate.isUnknown : AttrUpdate → Bool
  | .unknown _ => true
  | _ => false

/-- The loop body of `update_scheduled_backup` (lines 182-184):
`if hasattr(scheduled, key): setattr(scheduled, key, value)`. -/
def applyAttr (sb : ScheduledBackup) : AttrUpdate → ScheduledBackup
  | .id v => { sb with id := v }
  | .name v => { sb with name := v }
  | .vm_names v => { sb with vm_names := v }
  | .schedule_type v => { sb with schedule_type := v }
  | .schedule_time v => { sb with schedule_time := v }
  | .backup_mode v => { sb with backup_mode := v }
  | .enabled v => { sb with enabled := v }
  | .last_run v => { sb with last_run := v }
  | .next_run v => { sb with next_run := v }
  | .status v => { sb with status := v }
  | .created_at v => { sb with created_at := v }
  | .unknown _ => sb

/-- The check `'schedule_type' in kwargs or 'schedule_time' in kwargs`
(line 187). -/
def needsRecalc (kwargs : List AttrUpdate) : Bool :=
  kwargs.any fun k => k.keyName == "schedule_type" || k.keyName == "schedule_time"

/-- Outcome of `update_scheduled_backup`: `notFound` is the early
`return False` (map and persisted file untouched); `ok m` is `return True`
after mutating the entry to the map state `m` and saving it;
`raised m` is an exception escaping from the `next_run` recomputation,
after the kwargs were already applied but before any save. -/
inductive UpdateOutcome where
  | notFound
  | ok (m : List (String × ScheduledBackup))
  | raised (m : List (String × ScheduledBackup))
deriving Repr, DecidableEq

/-- `BackupScheduler.update_scheduled_backup` (lines 176-192), with
`datetime.now()` passed explicitly for the `next_run` recomputation. -/
def update_scheduled_backup (m : List (String × ScheduledBackup))
    (backup_id : String) (kwargs : List AttrUpdate) (now : DateTime) :
    UpdateOutcome :=
  match mapLookup m backup_id with
  | none => .notFound
  | some sb0 =>
    let sb1 := kwargs.foldl applyAttr sb0
    if needsRecalc kwargs then
      match calcNextRun sb1.schedule_type sb1.schedule_time now with
      | some nr => .ok (mapSet m backup_id { sb1 with next_run := some nr })
      | none => .raised (mapSet m backup_id sb1)
    else .ok (mapSet m backup_id sb1)

/-- `BackupMode` enumeration (`src/models.py` lines 11-16). -/
inductive BackupMode where
  | full
  | incremental
  | sync
  | snapshot
deriving Repr, DecidableEq

/-- The `.value` attribute of a `BackupMode` member. -/
def BackupMode.value : BackupMode → String
  | .full => "full"
  | .incremental => "incremental"
  | .sync => "sync"
  | .snapshot => "snapshot"

/-- Python `BackupMode(value)`; an unknown value raises `ValueError`,
modelled by `none`. -/
def BackupMode.ofValue (s : String) : Option BackupMode :=
  if s = "full" then some .full
  else if s = "incremental" then some .incremental
  else if s = "sync" then some .sync
  else if s = "snapshot" then some .snapshot
  else none

/-- `BackupStatus` enumeration (`src/models.py` lines 29-35). -/
inductive BackupStatus where
  | pending
  | running
  | completed
  | failed
  | cancelled
deriving Repr, DecidableEq

/-- The `.value` attribute of a `BackupStatus` member. -/
def BackupStatus.value : BackupStatus → String
  | .pending => "pending"
  | .running => "running"
  | .completed => "completed"
  | .failed => "failed"
  | .cancelled => "cancelled"

/-- `BackupJob` dataclass (`src/models.py` lines 86-103). -/
structure BackupJob where
  id : String
  name : String
  mode : BackupMode
  vm_names : List String
  scheduled_time : Option DateTime := none
  created_at : DateTime
  dry_run : Bool := false
  use_snapshots : Bool := true
  compress : Bool := true
  parallel_jobs : Nat := 1
  exclude_patterns : List String := []
  include_patterns : List String := []
  pre_backup_script : Option String := none
  post_backup_script : Option String := none
deriving Repr, DecidableEq

/-- `BackupManager.create_backup_job` (`src/backup_manager.py` lines
28-45), with the fresh uuid and `datetime.now()` passed explicitly;
`use_snapshots` and `compress` arrive through `**kwargs`. -/
def create_backup_job (jobId : String) (createdAt : DateTime) (name : String)
    (vm_names : List String) (mode : BackupMode)
    (scheduled_time : Option DateTime) (dry_run : Bool)
    (use_snapshots compress : Bool) : BackupJob :=
  { id := jobId, name := name, mode := mode, vm_names := vm_names,
    scheduled_time := scheduled_time, created_at := createdAt,
    dry_run := dry_run, use_snapshots := use_snapshots,
    compress := compress }

/-- One per-VM result dictionary, as populated by `BackupManager._backup_vm`
(`src/backup_manager.py` lines 120-153) and the strategy helpers. -/
structure VMResult where
  vm_name : String
  status : String
  snapshots_created : List String
  files_backed_up : List String
  size_bytes : Nat
  transferred_bytes : Nat
  error : Option String
  method : Option String
  vm_was_stopped : Option Bool
deriving Repr, DecidableEq

/-- Observable libvirt snapshot events and the cleanup-failure log line. -/
inductive SnapEv where
  | create (vm snap : String)
  | delete (vm snap : String)
  | cleanupFailLog (vm snap msg : String)
deriving Repr, DecidableEq

/-- Oracle environment for one `execute_backup` run: outcomes of the
external calls (libvirt, SSH, rsync, filesystem), per VM name.
`transferOutcome n = some msg` means the config/disk transfer section for
VM `n` raises an exception with text `msg`; `deleteRaises n = some msg`
means `delete_snapshot` raises (its normal `False` return is just a
logged failure and is covered by `none`). -/
structure BackupEnv where
  vmExists : String → Bool
  snapCreateOk : String → Bool
  transferOutcome : String → Option String
  filesFor : String → List String
  sizeFor : String → Nat
  transferredFor : String → Nat
  deleteRaises : String → Option String
  vmRunning : String → Bool
  shutdownOk : String → Bool
  sshConnectOk : Bool
  createDirFail : Option String
  summaryFail : Option String
  now : DateTime
  now2 : DateTime

/-- Zero-padded two-digit decimal, as `strftime` `%m`/`%d`/`%H`/`%M`/`%S`. -/
def pad2 (n : Nat) : String :=
  if n < 10 then "0" ++ toString n else toString n

/-- Zero-padded four-digit decimal, as `strftime` `%Y`. -/
def pad4 (n : Nat) : String :=
  if n < 10 then "000" ++ toString n
  else if n < 100 then "00" ++ toString n
  else if n < 1000 then "0" ++ toString n
  else toString n

/-- `f"backup-{datetime.now().strftime('%Y%m%d-%H%M%S')}"`
(`src/backup_manager.py` line 166). -/
def mkSnapName (now : DateTime) : String :=
  "backup-" ++ pad4 now.year ++ pad2 now.month ++ pad2 now.day ++ "-" ++
    pad2 now.hour ++ pad2 now.minute ++ pad2 now.second

/-- The dictionary returned by `_backup_vm_with_snapshots`. -/
structure SnapSectionResult where
  snapshots_created : List String
  files_backed_up : List String
  size_bytes : Nat
  transferred_bytes : Nat
  method : String
deriving Repr, DecidableEq

/-- `BackupManager._backup_vm_with_snapshots` (`src/backup_manager.py`
lines 155-200), returning the raised exception or the result dictionary,
together with the trace of snapshot create/delete calls and cleanup-failure
log lines.  `create_snapshot` is always called; a `None` return raises
`"Failed to create snapshot"` with nothing recorded as created.  After a
successful create the name is recorded; on the success path the delete runs
only when not `dry_run` (and the name is removed only after the delete
returns, so a delete that raises re-enters the cleanup path and the retried
delete's failure is logged while the delete error propagates); on the error
path the cleanup delete is attempted, its own failure only logged, and the
original exception re-raised. -/
def backupVMWithSnapshots (env : BackupEnv) (job : BackupJob)
    (vmName : String) : Except String SnapSectionResult × List SnapEv :=
  let snapName := mkSnapName env.now
  if env.snapCreateOk vmName = false then
    (.error "Failed to create snapshot", [.create vmName snapName])
  else
    match env.transferOutcome vmName with
    | some msg =>
      match env.deleteRaises vmName with
      | some cleanupMsg =>
        (.error msg,
          [.create vmName snapName, .delete vmName snapName,
           .cleanupFailLog vmName snapName cleanupMsg])
      | none =>
        (.error msg, [.create vmName snapName, .delete vmName snapName])
    | none =>
      if job.dry_run then
        (.ok { snapshots_created := [snapName],
               files_backed_up := env.filesFor vmName,
               size_bytes := env.sizeFor vmName,
               transferred_bytes := env.transferredFor vmName,
               method := "snapshot" },
         [.create vmName snapName])
      else
        match env.deleteRaises vmName with
        | some delMsg =>
          (.error delMsg,
            [.create vmName snapName, .delete vmName snapName,
             .delete vmName snapName, .cleanupFailLog vmName snapName delMsg])
        | none =>
          (.ok { snapshots_created := [],
                 files_backed_up := env.filesFor vmName,
                 size_bytes := env.sizeFor vmName,
                 transferred_bytes := env.transferredFor vmName,
                 method := "snapshot" },
           [.create vmName snapName, .delete vmName snapName])

/-- The dictionary returned by `_backup_vm_traditional`. -/
structure TradSectionResult where
  files_backed_up : List String
  size_bytes : Nat
  transferred_bytes : Nat
  method : String
  vm_was_stopped : Bool
deriving Repr, DecidableEq

/-- `BackupManager._backup_vm_traditional` (`src/backup_manager.py` lines
202-251): shut the VM down when running and not `dry_run` (a shutdown
failure raises), transfer, restart (restart failures only logged). -/
def backupVMTraditional (env : BackupEnv) (job : BackupJob)
    (vmName : String) : Except String TradSectionResult :=
  let wasRunning := env.vmExists vmName && env.vmRunning vmName
  if wasRunning && !job.dry_run then
    if env.shutdownOk vmName = false then
      .error ("Failed to stop VM " ++ vmName)
    else
      match env.transferOutcome vmName with
      | some msg => .error msg
      | none =>
        .ok { files_backed_up := env.filesFor vmName,
              size_bytes := env.sizeFor vmName,
              transferred_bytes := env.transferredFor vmName,
              method := "traditional", vm_was_stopped := true }
  else
    match env.transferOutcome vmName with
    | some msg => .error msg
    | none =>
      .ok { files_backed_up := env.filesFor vmName,
            size_bytes := env.sizeFor vmName,
            transferred_bytes := env.transferredFor vmName,
            method := "traditional", vm_was_stopped := false }

/-- `BackupManager._backup_vm` (`src/backup_manager.py` lines 120-153):
the per-VM try/except.  Any exception — VM not found, or one raised by the
strategy helper — is captured into the entry (`status = 'failed'` with the
error text); on success the helper's dictionary is merged and
`status = 'success'`. -/
def backupVM (env : BackupEnv) (job : BackupJob) (vmName : String) :
    VMResult × List SnapEv :=
  let base : VMResult :=
    { vm_name := vmName, status := "pending", snapshots_created := [],
      files_backed_up := [], size_bytes := 0, transferred_bytes := 0,
      error := none, method := none, vm_was_stopped := none }
  if env.vmExists vmName = false then
    ({ base with status := "failed",
                 error := some ("VM '" ++ vmName ++ "' not found") }, [])
  else if job.use_snapshots then
    match backupVMWithSnapshots env job vmName with
    | (.ok r, tr) =>
      ({ base with status := "success",
                   snapshots_created := r.snapshots_created,
                   files_backed_up := r.files_backed_up,
                   size_bytes := r.size_bytes,
                   transferred_bytes := r.transferred_bytes,
                   method := some r.method }, tr)
    | (.error e, tr) =>
      ({ base with status := "failed", error := some e }, tr)
  else
    match backupVMTraditional env job vmName with
    | .ok r =>
      ({ base with status := "success",
                   files_backed_up := r.files_backed_up,
                   size_bytes := r.size_bytes,
                   transferred_bytes := r.transferred_bytes,
                   method := some r.method,
                   vm_was_stopped := some r.vm_was_stopped }, [])
    | .error e =>
      ({ base with status := "failed", error := some e }, [])

/-- `BackupResult` dataclass (`src/models.py` lines 106-134); the per-VM
map in insertion order. -/
structure BackupResult where
  job_id : String
  status : BackupStatus
  start_time : DateTime
  end_time : Option DateTime
  vm_results : List (String × VMResult)
  total_size_bytes : Nat
  transferred_bytes : Nat
  error_message : Option String
deriving Repr, DecidableEq

/-- `BackupResult.success_rate` (`src/models.py` lines 126-134), in exact
rational arithmetic: `0.0` for an empty per-VM map, else
`(successful / len(vm_results)) * 100`. -/
def BackupResult.success_rate (r : BackupResult) : ℚ :=
  if r.vm_results = [] then 0
  else ((r.vm_results.countP fun p => p.2.status == "success" : Nat) : ℚ) /
      ((r.vm_results.length : Nat) : ℚ) * 100

/-- Python dict assignment `result.vm_results[vm_name] = vm_result`:
replace in place when the key exists, else append. -/
def dictInsert (m : List (String × VMResult)) (k : String) (v : VMResult) :
    List (String × VMResult) :=
  if m.any fun p => p.1 == k then
    m.map fun p => if p.1 == k then (k, v) else p
  else m ++ [(k, v)]

/-- The per-VM loop of `execute_backup` (lines 82-88): the `vm_results`
mapping it builds. -/
def vmResultsOf (env : BackupEnv) (job : BackupJob) :
    List (String × VMResult) :=
  job.vm_names.foldl (fun acc n => dictInsert acc n (backupVM env job n).1) []

/-- The `total_size_bytes` accumulated by the loop (only entries with a
positive `size_bytes` contribute). -/
def totalSizeOf (env : BackupEnv) (job : BackupJob) : Nat :=
  job.vm_names.foldl
    (fun acc n =>
      if (backupVM env job n).1.size_bytes > 0 then
        acc + (backupVM env job n).1.size_bytes
      else acc) 0

/-- The `transferred_bytes` accumulated by the loop (guarded by the same
positive-size test as `total_size_bytes`). -/
def totalTransferredOf (env : BackupEnv) (job : BackupJob) : Nat :=
  job.vm_names.foldl
    (fun acc n =>
      if (backupVM env job n).1.size_bytes > 0 then
        acc + (backupVM env job n).1.transferred_bytes
      else acc) 0

/-- The concatenated snapshot-event trace of the per-VM loop. -/
def vmTraceOf (env : BackupEnv) (job : BackupJob) : List SnapEv :=
  job.vm_names.foldl (fun acc n => acc ++ (backupVM env job n).2) []

/-- `BackupManager.execute_backup` (`src/backup_manager.py` lines 47-118).
The function is total — every exception of the body is caught by the outer
handler, which stores `failed` plus the message; `end_time` is set
unconditionally after the try/except.  Pre/post-backup scripts are run by
`_run_script` (lines 477-494) which swallows its own exceptions, so they
cannot affect the result; `disconnect` in the `finally` is effect-free
here.  An SSH connect failure raises `"Failed to connect to backup
server"`; a `create_directory`/summary failure aborts with that message,
keeping whatever `vm_results` were accumulated. -/
def execute_backup (env : BackupEnv) (job : BackupJob) :
    BackupResult × List SnapEv :=
  let result0 : BackupResult :=
    { job_id := job.id, status := .running, start_time := env.now,
      end_time := none, vm_results := [], total_size_bytes := 0,
      transferred_bytes := 0, error_message := none }
  let mainOut : BackupResult × List SnapEv :=
    if env.sshConnectOk then
      match env.createDirFail with
      | some msg =>
        ({ result0 with status := .failed, error_message := some msg }, [])
      | none =>
        match env.summaryFail with
        | some msg =>
          ({ result0 with vm_results := vmResultsOf env job,
                          total_size_bytes := totalSizeOf env job,
                          transferred_bytes := totalTransferredOf env job,
                          status := .failed, error_message := some msg },
           vmTraceOf env job)
        | none =>
          ({ result0 with vm_results := vmResultsOf env job,
                          total_size_bytes := totalSizeOf env job,
                          transferred_bytes := totalTransferredOf env job,
                          status := .completed },
           vmTraceOf env job)
    else
      ({ result0 with status := .failed,
                      error_message := some "Failed to connect to backup server" },
       [])
  ({ mainOut.1 with end_time := some env.now2 }, mainOut.2)

/-- Outcome of one `execute_scheduled_backup` dispatch: the definition's
final state, the backup job built (if the `BackupMode` conversion did not
raise first), whether the `finally` block saved the schedule set (always),
and whether an exception escaped (only possible when `_calculate_next_run`
raises, i.e. the recurrence spec is invalid). -/
structure SchedExecOutcome where
  backup : ScheduledBackup
  jobBuilt : Option BackupJob
  saved : Bool
  raisedOut : Bool
deriving Repr, DecidableEq

/-- `BackupScheduler.execute_scheduled_backup` (`src/scheduler.py` lines
212-251).  The awaited `BackupManager.execute_backup` call (line 228) is
abstracted by the oracle `execOutcome`: `Except.ok v` is a returned result
whose `status.value` equals `v`, `Except.error e` an exception raised at
the await.  `tsec` models `int(time.time())` in the job name.  On both the
normal and the except path the definition gets `status = "running"`, then
`"completed"`/`"failed"` transiently, then `update_next_run` (which sets
`last_run` before recomputing `next_run`) and `status = "scheduled"`; the
`finally` always saves. -/
def execute_scheduled_backup (sb : ScheduledBackup) (jobId : String)
    (tsec : Nat) (now : DateTime) (execOutcome : Except String String) :
    SchedExecOutcome :=
  let sb1 := { sb with status := "running" }
  let exceptPath : ScheduledBackup → Option BackupJob → SchedExecOutcome :=
    fun sbE jobE =>
      let sbF := { sbE with status := "failed", last_run := some now }
      match calcNextRun sbF.schedule_type sbF.schedule_time now with
      | some nr =>
        { backup := { sbF with next_run := some nr, status := "scheduled" },
          jobBuilt := jobE, saved := true, raisedOut := false }
      | none =>
        { backup := sbF, jobBuilt := jobE, saved := true, raisedOut := true }
  match BackupMode.ofValue sb.backup_mode with
  | none => exceptPath sb1 none
  | some mode =>
    let job := create_backup_job jobId now
      ("scheduled_" ++ sb.name ++ "_" ++ toString tsec) sb.vm_names mode
      none false true true
    match execOutcome with
    | .error _ => exceptPath sb1 (some job)
    | .ok statusVal =>
      let sb2 := { sb1 with
        status := if statusVal == "completed" then "completed" else "failed" }
      let sb3 := { sb2 with last_run := some now }
      match calcNextRun sb3.schedule_type sb3.schedule_time now with
      | some nr =>
        { backup := { sb3 with next_run := some nr, status := "scheduled" },
          jobBuilt := some job, saved := true, raisedOut := false }
      | none =>
        { backup := { sb3 with status := "failed" },
          jobBuilt := some job, saved := true, raisedOut := true }

/-- The `days_ahead` value the weekly branch computes
(`src/scheduler.py` lines 57-59), already adjusted into 1..7. -/
def weeklyDaysAhead (targetDay : Nat) (now : DateTime) : Nat :=
  (if (targetDay : Int) - (now.weekday : Int) ≤ 0 then
      (targetDay : Int) - (now.weekday : Int) + 7
    else (targetDay : Int) - (now.weekday : Int)).toNat

/-- A concrete scheduled definition used to instantiate theorems. -/
def exDef1 : ScheduledBackup :=
  { id := "b1", name := "nightly", vm_names := ["vm1"],
    schedule_type := "daily", schedule_time := "02:00",
    backup_mode := "incremental", enabled := true,
    last_run := none, next_run := some ⟨2025, 1, 5, 2, 0, 0, 0⟩,
    status := "scheduled", created_at := ⟨2025, 1, 1, 0, 0, 0, 0⟩ }

/-- A concrete oracle environment: every call succeeds except the transfer
of VM `badvm`, which raises `"rsync failed"`; `ghost` does not exist. -/
def exEnv : BackupEnv :=
  { vmExists := fun n => n != "ghost",
    snapCreateOk := fun _ => true,
    transferOutcome := fun n => if n = "badvm" then some "rsync failed" else none,
    filesFor := fun n => ["disk:/backup/latest/images/" ++ n ++ ".qcow2"],
    sizeFor := fun _ => 1000,
    transferredFor := fun _ => 100,
    deleteRaises := fun _ => none,
    vmRunning := fun _ => true,
    shutdownOk := fun _ => true,
    sshConnectOk := true,
    createDirFail := none,
    summaryFail := none,
    now := ⟨2025, 1, 5, 4, 0, 0, 0⟩,
    now2 := ⟨2025, 1, 5, 4, 30, 0, 0⟩ }

/-- A concrete snapshot-mode job over a healthy VM and a failing VM. -/
def exJob : BackupJob :=
  { id := "J1", name := "test", mode := .incremental,
    vm_names := ["vm1", "badvm"], created_at := ⟨2025, 1, 5, 4, 0, 0, 0⟩,
    dry_run := false, use_snapshots := true, compress := true }

/-- An environment whose transfers raise `"disk error"` and whose
`delete_snapshot` raises `"cleanup boom"`. -/
def exEnv2 : BackupEnv :=
  { exEnv with
    transferOutcome := fun _ => some "disk error",
    deleteRaises := fun _ => some "cleanup boom" }

/-- The same job as `exJob` but in `dry_run` mode. -/
def exJobDry : BackupJob := { exJob with dry_run := true }

/-- A concrete successful per-VM entry. -/
def exVMResultOk : VMResult :=
  { vm_name := "vm1", status := "success", snapshots_created := [],
    files_backed_up := ["disk:/backup/latest/images/vm1.qcow2"],
    size_bytes := 10, transferred_bytes := 1, error := none,
    method := some "snapshot", vm_was_stopped := none }

/-- A concrete failed per-VM entry. -/
def exVMResultBad : VMResult :=
  { vm_name := "badvm", status := "failed", snapshots_created := [],
    files_backed_up := [], size_bytes := 0, transferred_bytes := 0,
    error := some "rsync failed", method := none, vm_was_stopped := none }

/-- A concrete request result: one success out of two VMs. -/
def exResult : BackupResult :=
  { job_id := "J1", status := .completed,
    start_time := ⟨2025, 1, 5, 4, 0, 0, 0⟩,
    end_time := some ⟨2025, 1, 5, 4, 30, 0, 0⟩,
    vm_results := [("vm1", exVMResultOk), ("badvm", exVMResultBad)],
    total_size_bytes := 10, transferred_bytes := 1, error_message := none }

/-- Strict order on the date component only. -/
def dateLt (a b : DateTime) : Prop :=
  a.year < b.year ∨
    (a.year = b.year ∧ (a.month < b.month ∨ (a.month = b.month ∧ a.day < b.day)))

/-- Propositional form of the field-lexicographic strict order. -/
def ltProp (a b : DateTime) : Prop :=
  a.year < b.year ∨ (a.year = b.year ∧
    (a.month < b.month ∨ (a.month = b.month ∧
      (a.day < b.day ∨ (a.day = b.day ∧
        (a.hour < b.hour ∨ (a.hour = b.hour ∧
          (a.minute < b.minute ∨ (a.minute = b.minute ∧
            (a.second < b.second ∨ (a.second = b.second ∧
              a.microsecond < b.microsecond)))))))))))

example :
    calcNextRun "daily" "02:00" ⟨2025, 1, 5, 4, 0, 0, 0⟩ =
      some ⟨2025, 1, 6, 2, 0, 0, 0⟩ := by decide

example :
    calcNextRun "daily" "14:30" ⟨2025, 1, 5, 4, 0, 0, 0⟩ =
      some ⟨2025, 1, 5, 14, 30, 0, 0⟩ := by decide

example : DateTime.weekday ⟨2025, 1, 5, 2, 0, 0, 0⟩ = 6 := by decide

example :
    calcNextRun "weekly" "sunday:03:00" ⟨2025, 1, 5, 4, 0, 0, 0⟩ =
      some ⟨2025, 1, 12, 3, 0, 0, 0⟩ := by decide

example :
    calcNextRun "weekly" "sunday:03:00" ⟨2025, 1, 5, 2, 0, 0, 0⟩ =
      some ⟨2025, 1, 12, 3, 0, 0, 0⟩ := by decide

example :
    calcNextRun "monthly" "15:02:30" ⟨2025, 1, 20, 4, 0, 0, 0⟩ =
      some ⟨2025, 2, 15, 2, 30, 0, 0⟩ := by decide

example :
    calcNextRun "monthly" "31:02:30" ⟨2025, 1, 31, 4, 0, 0, 0⟩ = none := by decide

theorem blt_iff {a b : DateTime} : a.blt b = true ↔ ltProp a b := by
  simp only [DateTime.blt, ltProp]
  split_ifs <;> simp_all

theorem ble_iff {a b : DateTime} : a.ble b = true ↔ (ltProp a b ∨ a = b) := by
  simp only [DateTime.ble, Bool.or_eq_true, beq_iff_eq, blt_iff]

theorem blt_of_not_ble {a b : DateTime} (h : a.ble b = false) : b.blt a = true := by
  have h' : ¬ (ltProp a b ∨ a = b) := by
    rw [← ble_iff, h]; simp
  rw [blt_iff]
  cases a; cases b
  simp only [ltProp, DateTime.mk.injEq, not_or] at h' ⊢
  omega

theorem blt_of_dateLt {a b : DateTime} (h : dateLt a b) : a.blt b = true := by
  rw [blt_iff]
  simp only [dateLt] at h
  simp only [ltProp]
  omega

theorem dateLt_trans {a b c : DateTime} (h1 : dateLt a b) (h2 : dateLt b c) :
    dateLt a c := by
  simp only [dateLt] at *
  omega

theorem dateLt_nextDay (d : DateTime) : dateLt d d.nextDay := by
  simp only [DateTime.nextDay]
  split_ifs <;> simp [dateLt]

theorem dateLt_addDays (d : DateTime) {n : Nat} (h : 1 ≤ n) :
    dateLt d (d.addDays n) := by
  induction n with
  | zero => omega
  | succ n ih =>
    match n, ih with
    | 0, _ => exact dateLt_nextDay d
    | m + 1, ih => exact dateLt_trans (ih (by omega)) (dateLt_nextDay _)

theorem blt_addDays_replace {now : DateTime} {h m n : Nat} (hn : 1 ≤ n) :
    now.blt
      (DateTime.addDays
        { now with hour := h, minute := m, second := 0, microsecond := 0 } n) =
      true := by
  refine blt_of_dateLt ?_
  have hd := dateLt_addDays
    (d := { now with hour := h, minute := m, second := 0, microsecond := 0 }) hn
  simp only [dateLt] at hd ⊢
  simpa using hd

theorem calcDaily_lt {h m : Nat} {now d : DateTime}
    (hc : calcDaily h m now = some d) : now.blt d = true := by
  simp only [calcDaily, DateTime.replaceTime] at hc
  split_ifs at hc
  · rw [Option.map_some'] at hc
    injection hc with hc
    subst hc
    split_ifs with hb
    · exact blt_addDays_replace (by omega)
    · exact blt_of_not_ble (by simpa using hb)
  · simp at hc

theorem weekday_lt (d : DateTime) : d.weekday < 7 :=
  Nat.mod_lt _ (by omega)

theorem calcWeekly_lt {t h m : Nat} {now d : DateTime}
    (hc : calcWeekly t h m now = some d) : now.blt d = true := by
  have hw := weekday_lt now
  simp only [calcWeekly, DateTime.replaceTime] at hc
  split_ifs at hc <;>
    simp only [Option.map_some', Option.map_none', Option.some.injEq,
      reduceCtorEq] at hc
  all_goals subst hc
  all_goals exact blt_addDays_replace (by omega)

theorem calcMonthly_lt {dd h m : Nat} {now d : DateTime}
    (hc : calcMonthly dd h m now = some d) : now.blt d = true := by
  simp only [calcMonthly] at hc
  split_ifs at hc with h1 h2 h3 h4 <;>
    simp only [Option.some.injEq, reduceCtorEq] at hc
  · subst hc
    refine blt_of_dateLt ?_
    simp only [dateLt]
    simp
  · subst hc
    refine blt_of_dateLt ?_
    simp only [dateLt]
    simp
  · subst hc
    exact blt_of_not_ble (by simpa using h2)

/-- Claim C3: for every valid recurrence spec, `_calculate_next_run` returns
a timestamp strictly after `now`, for all three recurrence kinds, including
the boundary case where the naive same-day / same-week / same-month slot has
already elapsed.  A successfully computed next run (`some d`, i.e. a run of
the source that does not raise, which is exactly what a valid spec
guarantees) is strictly later than `now`. -/
theorem calcNextRun_strictly_future (st time : String) (now d : DateTime) :
    calcNextRun st time now = some d → now.blt d = true := by
  intro hc
  simp only [calcNextRun] at hc
  split_ifs at hc <;>
  repeat
    first
    | exact calcDaily_lt hc
    | exact calcWeekly_lt hc
    | exact calcMonthly_lt hc
    | simp at hc
    | split at hc

/-- Witness for claim C3: a daily `02:00` spec evaluated at
2025-01-05 04:00 (slot already elapsed) yields 2025-01-06 02:00, which is
strictly after `now`. -/
theorem calcNextRun_strictly_future_witness :
    calcNextRun "daily" "02:00" ⟨2025, 1, 5, 4, 0, 0, 0⟩ =
        some ⟨2025, 1, 6, 2, 0, 0, 0⟩ ∧
      DateTime.blt ⟨2025, 1, 5, 4, 0, 0, 0⟩ ⟨2025, 1, 6, 2, 0, 0, 0⟩ = true :=
  ⟨by decide,
    calcNextRun_strictly_future "daily" "02:00" ⟨2025, 1, 5, 4, 0, 0, 0⟩
      ⟨2025, 1, 6, 2, 0, 0, 0⟩ (by decide)⟩

theorem calcWeekly_eq (t h m : Nat) (now : DateTime)
    (hh : h ≤ 23) (hm : m ≤ 59) :
    calcWeekly t h m now =
      some (DateTime.addDays
        { now with hour := h, minute := m, second := 0, microsecond := 0 }
        (weeklyDaysAhead t now)) := by
  have hcond : h ≤ 23 ∧ m ≤ 59 := ⟨hh, hm⟩
  simp only [calcWeekly, DateTime.replaceTime, weeklyDaysAhead]
  rw [if_pos hcond, Option.map_some']

theorem dayNameIndex_le {s : List Char} {t : Nat}
    (h : dayNameIndex s = some t) : t ≤ 6 := by
  simp only [dayNameIndex] at h
  split_ifs at h <;> simp_all <;> omega

/-- Claim C6 (counterexample to the claim as stated): on Sunday
2025-01-05 at 02:00, a weekly `sunday:03:00` spec should — per the claim —
yield today at 03:00 (the weekday is today and 03:00 has not yet passed),
but the code yields the following Sunday, 2025-01-12 03:00. -/
theorem weekly_same_day_future_slot_cex :
    calcNextRun "weekly" "sunday:03:00" ⟨2025, 1, 5, 2, 0, 0, 0⟩ =
        some ⟨2025, 1, 12, 3, 0, 0, 0⟩ ∧
      (⟨2025, 1, 12, 3, 0, 0, 0⟩ : DateTime) ≠ ⟨2025, 1, 5, 3, 0, 0, 0⟩ := by
  decide

/-- Claim C6 (amended): for every valid weekly spec, the next run is today's
date advanced by `days_ahead` days at `HH:MM`, where
`days_ahead = target - weekday(now)` incremented by 7 whenever it is ≤ 0 —
i.e. the code rolls 7 days forward whenever the target weekday is today or
earlier in the week, regardless of whether `HH:MM` has passed.  `days_ahead`
is always in 1..7, the result is strictly after `now`, and when the target
weekday is today the run is pushed a full week out (`days_ahead = 7`) even
if `HH:MM` has not yet passed; in particular a `sunday:03:00` definition
added on a Sunday at 04:00 yields the following Sunday. -/
theorem weekly_next_run_characterization (time : String) (now d : DateTime)
    (hc : calcNextRun "weekly" time now = some d) :
    ∃ (ds hs ms : List Char) (rest : List (List Char)) (t h m : Nat),
      splitColon time.toList [] = ds :: hs :: ms :: rest ∧
      dayNameIndex (lowerChars ds) = some t ∧
      parseNat hs = some h ∧ parseNat ms = some m ∧
      d = DateTime.addDays
          { now with hour := h, minute := m, second := 0, microsecond := 0 }
          (weeklyDaysAhead t now) ∧
      1 ≤ weeklyDaysAhead t now ∧ weeklyDaysAhead t now ≤ 7 ∧
      now.blt d = true ∧
      (now.weekday = t → weeklyDaysAhead t now = 7) := by
  have hw := weekday_lt now
  have hlt := calcNextRun_strictly_future "weekly" time now d hc
  simp only [calcNextRun] at hc
  split_ifs at hc
  · simp_all
  · split at hc
    · rename_i dsL hsL msL tailL heqsplit
      split at hc
      · rename_i t h m hday hhs hms
        have ht := dayNameIndex_le hday
        have hle23 : h ≤ 23 ∧ m ≤ 59 := by
          by_contra hcon
          rw [calcWeekly, DateTime.replaceTime, if_neg hcon] at hc
          simp at hc
        rw [calcWeekly_eq t h m now hle23.1 hle23.2] at hc
        injection hc with hc
        refine ⟨dsL, hsL, msL, tailL, t, h, m, heqsplit, hday, hhs, hms,
          hc.symm, ?_, ?_, hlt, ?_⟩
        · simp only [weeklyDaysAhead]
          split_ifs <;> omega
        · simp only [weeklyDaysAhead]
          split_ifs <;> omega
        · intro hwt
          simp only [weeklyDaysAhead, hwt]
          simp
      · simp at hc
    · simp at hc

/-- Claim C4: `get_due_backups` returns exactly the definitions that are
enabled, not `running`, and whose `next_run` is set and `<= now`; in
particular it never returns a definition whose status is `running`. -/
theorem get_due_backups_spec (m : List (String × ScheduledBackup))
    (now : DateTime) :
    (∀ b : ScheduledBackup,
        b ∈ get_due_backups m now ↔
          (b ∈ m.map Prod.snd ∧ b.enabled = true ∧ b.status ≠ "running" ∧
            ∃ t, b.next_run = some t ∧ t.ble now = true)) ∧
    ∀ b ∈ get_due_backups m now, b.status ≠ "running" := by
  have main : ∀ b : ScheduledBackup,
      b ∈ get_due_backups m now ↔
        (b ∈ m.map Prod.snd ∧ b.enabled = true ∧ b.status ≠ "running" ∧
          ∃ t, b.next_run = some t ∧ t.ble now = true) := by
    intro b
    simp only [get_due_backups, List.mem_filter, Bool.and_eq_true,
      Bool.not_eq_true', beq_eq_false_iff_ne, ne_eq]
    constructor
    · rintro ⟨hmem, ⟨hen, hst⟩, hnr⟩
      refine ⟨hmem, hen, hst, ?_⟩
      cases hnr' : b.next_run with
      | none => rw [hnr'] at hnr; simp at hnr
      | some t => rw [hnr'] at hnr; exact ⟨t, rfl, hnr⟩
    · rintro ⟨hmem, hen, hst, t, hnr, hble⟩
      exact ⟨hmem, ⟨hen, hst⟩, by rw [hnr]; exact hble⟩
  exact ⟨main, fun b hb => (((main b).mp hb).2.2).1⟩

/-- Witness for claim C4: a concrete enabled, non-running definition whose
`next_run` has passed is selected, and it is indeed not `running`. -/
theorem get_due_backups_spec_witness :
    exDef1 ∈ get_due_backups [("b1", exDef1)] ⟨2025, 1, 5, 4, 0, 0, 0⟩ ∧
      exDef1.status ≠ "running" := by
  have h := get_due_backups_spec [("b1", exDef1)] ⟨2025, 1, 5, 4, 0, 0, 0⟩
  have hmem : exDef1 ∈ get_due_backups [("b1", exDef1)] ⟨2025, 1, 5, 4, 0, 0, 0⟩ :=
    (h.1 exDef1).mpr
      ⟨by decide, by decide, by decide, ⟨⟨2025, 1, 5, 2, 0, 0, 0⟩, rfl, by decide⟩⟩
  exact ⟨hmem, h.2 exDef1 hmem⟩

/-- Claim C8 (counterexample to the claim as stated): a definition whose
`next_run` is `None` does not round-trip: `from_dict` leaves the freshly
recomputed `next_run` of the constructor in place (the stored `None` is
falsy and never copied back), so the reloaded definition differs from the
original. -/
theorem roundtrip_next_run_none_cex :
    ScheduledBackup.from_dict
        (ScheduledBackup.to_dict { exDef1 with next_run := none })
        ⟨2025, 1, 5, 4, 0, 0, 0⟩ =
      some { exDef1 with next_run := some ⟨2025, 1, 6, 2, 0, 0, 0⟩ } ∧
    ScheduledBackup.from_dict
        (ScheduledBackup.to_dict { exDef1 with next_run := none })
        ⟨2025, 1, 5, 4, 0, 0, 0⟩ ≠
      some { exDef1 with next_run := none } := by
  decide

/-- Claim C8 (amended): `from_dict (to_dict s)` yields a definition whose
`id`, `name`, `vm_names`, `schedule_type`, `schedule_time`, `backup_mode`,
`enabled`, `last_run` (including `last_run = None`), `next_run`, `status`
and `created_at` all equal those of `s`, provided `s.next_run` is not
`None` (a `None` `next_run` is replaced by a freshly computed one) and the
recurrence spec still parses at reload time (otherwise `from_dict`'s
constructor call raises). -/
theorem to_dict_from_dict_roundtrip (s : ScheduledBackup) (loadNow : DateTime)
    (hvalid : (calcNextRun s.schedule_type s.schedule_time loadNow).isSome = true)
    (hnr : s.next_run ≠ none) :
    ScheduledBackup.from_dict s.to_dict loadNow = some s := by
  obtain ⟨nr', hnr'⟩ := Option.isSome_iff_exists.mp hvalid
  obtain ⟨i, n, vms, st, stime, bm, en, lr, nr, stat, ca⟩ := s
  simp only [ScheduledBackup.to_dict] at hnr' ⊢
  simp only at hnr hnr'
  simp only [ScheduledBackup.from_dict, ScheduledBackup.init, hnr',
    Option.map_some']
  rcases nr with _ | t
  · simp at hnr
  · rcases lr with _ | u <;> simp

/-- Witness for the amended claim C8: a concrete definition with
`last_run = None` and a set `next_run` reloads to an identical value. -/
theorem to_dict_from_dict_roundtrip_witness :
    ScheduledBackup.from_dict exDef1.to_dict ⟨2025, 1, 5, 4, 0, 0, 0⟩ =
      some exDef1 :=
  to_dict_from_dict_roundtrip exDef1 ⟨2025, 1, 5, 4, 0, 0, 0⟩
    (by decide) (by decide)

theorem mapLookup_none_iff (m : List (String × ScheduledBackup)) (k : String) :
    mapLookup m k = none ↔ mapMember m k = false := by
  simp [mapLookup, mapMember, Option.map_eq_none', List.find?_eq_none,
    List.any_eq_false]

theorem foldl_applyAttr_filter (kwargs : List AttrUpdate) (sb : ScheduledBackup) :
    kwargs.foldl applyAttr sb =
      (kwargs.filter fun k => !k.isUnknown).foldl applyAttr sb := by
  induction kwargs generalizing sb with
  | nil => rfl
  | cons k ks ih =>
    cases k <;>
      simp only [List.foldl_cons, List.filter_cons, AttrUpdate.isUnknown,
        Bool.not_true, Bool.not_false, reduceIte, applyAttr] <;>
      exact ih _

/-- Claim C10 (counterexample to the claim as stated): the id is a key of
the map, yet `update_scheduled_backup` does not return `True` — the kwargs
set `schedule_time` to `"garbage"`, so the triggered `_calculate_next_run`
raises out of the function before any save, with the kwarg already applied
to the in-memory object.  So 'returns True if and only if id is a key …
and persists the schedule set' fails at this input. -/
theorem update_invalid_spec_raises_cex :
    mapMember [("b1", exDef1)] "b1" = true ∧
    update_scheduled_backup [("b1", exDef1)] "b1"
        [AttrUpdate.schedule_time "garbage"] ⟨2025, 1, 5, 4, 0, 0, 0⟩ =
      UpdateOutcome.raised
        [("b1", { exDef1 with schedule_time := "garbage" })] := by
  decide

/-- Claim C10 (amended): `update_scheduled_backup` returns `False` exactly
when the id is absent (map and file untouched); when the id is present it
applies each kwarg naming an attribute in order, ignores kwargs naming
none, and recomputes `next_run` exactly when `schedule_type` or
`schedule_time` is among the kwargs; provided that recomputation does not
raise (the resulting spec is valid at that instant — when no recomputation
is triggered there is no such proviso), it saves the schedule set and
returns `True`.  When the recomputation raises, the exception propagates:
the function neither returns `True` nor saves, though the kwargs were
already applied to the in-memory object. -/
theorem update_scheduled_backup_spec (m : List (String × ScheduledBackup))
    (bid : String) (kwargs : List AttrUpdate) (now : DateTime) :
    (update_scheduled_backup m bid kwargs now = .notFound ↔
      mapMember m bid = false) ∧
    (∀ sb0, mapLookup m bid = some sb0 →
      (kwargs.foldl applyAttr sb0 =
        (kwargs.filter fun k => !k.isUnknown).foldl applyAttr sb0) ∧
      (needsRecalc kwargs = false →
        update_scheduled_backup m bid kwargs now =
          .ok (mapSet m bid (kwargs.foldl applyAttr sb0))) ∧
      (∀ nr, needsRecalc kwargs = true →
        calcNextRun (kwargs.foldl applyAttr sb0).schedule_type
            (kwargs.foldl applyAttr sb0).schedule_time now = some nr →
        update_scheduled_backup m bid kwargs now =
          .ok (mapSet m bid
            { kwargs.foldl applyAttr sb0 with next_run := some nr }))) := by
  constructor
  · cases hl : mapLookup m bid with
    | none =>
      simp only [update_scheduled_backup, hl]
      simp [(mapLookup_none_iff m bid).mp hl]
    | some sb0 =>
      have hmem : mapMember m bid ≠ false := by
        intro hf
        rw [← mapLookup_none_iff] at hf
        rw [hl] at hf
        exact Option.noConfusion hf
      simp only [update_scheduled_backup, hl]
      constructor
      · intro hout
        split_ifs at hout
        all_goals try split at hout
        all_goals exact UpdateOutcome.noConfusion hout
      · intro hf
        exact absurd hf hmem
  · intro sb0 hl
    refine ⟨foldl_applyAttr_filter kwargs sb0, ?_, ?_⟩
    · intro hnc
      simp only [update_scheduled_backup, hl, hnc]
      simp
    · intro nr hnc hcalc
      simp only [update_scheduled_backup, hl, hnc, hcalc]
      simp

/-- Witness for the amended claim C10: updating a present definition with
one real attribute (`enabled`) and one unknown key applies the former,
ignores the latter, and persists the new map. -/
theorem update_scheduled_backup_spec_witness :
    update_scheduled_backup [("b1", exDef1)] "b1"
        [AttrUpdate.enabled false, AttrUpdate.unknown "nope"]
        ⟨2025, 1, 5, 4, 0, 0, 0⟩ =
      UpdateOutcome.ok [("b1", { exDef1 with enabled := false })] := by
  have h := (update_scheduled_backup_spec [("b1", exDef1)] "b1"
      [AttrUpdate.enabled false, AttrUpdate.unknown "nope"]
      ⟨2025, 1, 5, 4, 0, 0, 0⟩).2 exDef1 (by decide)
  exact (h.2.1 (by decide)).trans (by decide)

/-- Witness for the amended claim C6, at the spec's Scenario D: a weekly
`sunday:03:00` definition evaluated on Sunday 2025-01-05 at 04:00 yields the
following Sunday 2025-01-12 at 03:00, strictly after `now`. -/
theorem weekly_next_run_characterization_witness :
    calcNextRun "weekly" "sunday:03:00" ⟨2025, 1, 5, 4, 0, 0, 0⟩ =
        some ⟨2025, 1, 12, 3, 0, 0, 0⟩ ∧
      DateTime.blt ⟨2025, 1, 5, 4, 0, 0, 0⟩ ⟨2025, 1, 12, 3, 0, 0, 0⟩ = true := by
  refine ⟨by decide, ?_⟩
  obtain ⟨_, _, _, _, _, _, _, _, _, _, _, _, _, _, hblt, _⟩ :=
    weekly_next_run_characterization "sunday:03:00" ⟨2025, 1, 5, 4, 0, 0, 0⟩
      ⟨2025, 1, 12, 3, 0, 0, 0⟩ (by decide)
  exact hblt

theorem backupVM_total (env : BackupEnv) (job : BackupJob) (n : String) :
    (backupVM env job n).1.status = "success" ∨
      ((backupVM env job n).1.status = "failed" ∧
        (backupVM env job n).1.error ≠ none) := by
  simp only [backupVM]
  split_ifs
  · right; simp
  · split
    · left; rfl
    · right; simp
  · split
    · left; rfl
    · right; simp

theorem foldl_dictInsert_eq (f : String → VMResult) (names : List String) :
    ∀ (acc : List (String × VMResult)),
      (∀ n ∈ names, (acc.any fun p => p.1 == n) = false) → names.Nodup →
      names.foldl (fun a n => dictInsert a n (f n)) acc =
        acc ++ names.map fun n => (n, f n) := by
  induction names with
  | nil => intro acc _ _; simp
  | cons n ns ih =>
    intro acc hfresh hnd
    simp only [List.foldl_cons, List.map_cons]
    have hnotin : (acc.any fun p => p.1 == n) = false := hfresh n (by simp)
    have hins : dictInsert acc n (f n) = acc ++ [(n, f n)] := by
      simp only [dictInsert, hnotin]
      simp
    rw [hins, ih (acc ++ [(n, f n)]) ?_ (List.nodup_cons.mp hnd).2]
    · simp
    · intro m hm
      have h1 : (acc.any fun p => p.1 == m) = false :=
        hfresh m (by simp [hm])
      have h2 : n ≠ m := by
        intro he; subst he; exact (List.nodup_cons.mp hnd).1 hm
      simp [List.any_append, h1, h2]

theorem vmResultsOf_eq_map (env : BackupEnv) (job : BackupJob)
    (hnd : job.vm_names.Nodup) :
    vmResultsOf env job =
      job.vm_names.map fun n => (n, (backupVM env job n).1) := by
  have h := foldl_dictInsert_eq (fun n => (backupVM env job n).1)
    job.vm_names [] (by simp) hnd
  simpa [vmResultsOf] using h

/-- Claim C1: `execute_backup` always returns a `BackupResult` and never
raises (the model is a total function): a per-VM exception is captured into
that VM's entry (`status = 'failed'` with the error text) while the loop
continues over the remaining `vm_names` in order, a request-level failure
(SSH connect, remote directory, summary) yields `status = failed` with a
non-`None` `error_message`, and `end_time` is set in every case. -/
theorem execute_backup_spec (env : BackupEnv) (job : BackupJob)
    (hnd : job.vm_names.Nodup) :
    ((execute_backup env job).1.end_time = some env.now2) ∧
    (env.sshConnectOk = false →
      (execute_backup env job).1.status = .failed ∧
      (execute_backup env job).1.error_message ≠ none) ∧
    (env.sshConnectOk = true → env.createDirFail = none →
      (execute_backup env job).1.vm_results =
        job.vm_names.map fun n => (n, (backupVM env job n).1)) ∧
    (∀ n, (backupVM env job n).1.status = "success" ∨
      ((backupVM env job n).1.status = "failed" ∧
        (backupVM env job n).1.error ≠ none)) := by
  refine ⟨rfl, ?_, ?_, backupVM_total env job⟩
  · intro hssh
    simp [execute_backup, hssh]
  · intro h1 h2
    cases hs : env.summaryFail <;>
      simp [execute_backup, h1, h2, hs, vmResultsOf_eq_map env job hnd]

/-- Witness for claim C1: with one healthy and one failing VM, both VMs get
an entry in order, the failing VM's entry carries `failed` plus the error
text, and `end_time` is set. -/
theorem execute_backup_spec_witness :
    (execute_backup exEnv exJob).1.vm_results =
        [("vm1", (backupVM exEnv exJob "vm1").1),
         ("badvm", (backupVM exEnv exJob "badvm").1)] ∧
      (backupVM exEnv exJob "badvm").1.status = "failed" ∧
      (backupVM exEnv exJob "badvm").1.error = some "rsync failed" ∧
      (execute_backup exEnv exJob).1.end_time =
        some ⟨2025, 1, 5, 4, 30, 0, 0⟩ := by
  have h := execute_backup_spec exEnv exJob (by decide)
  refine ⟨?_, by decide, by decide, ?_⟩
  · exact (h.2.2.1 rfl rfl).trans rfl
  · exact h.1.trans rfl

/-- Claim C2: with `dry_run` false, once `create_snapshot` succeeded,
`delete_snapshot` is invoked for the same VM and snapshot name on every
code path before the function returns; on the error path the original
exception is the one that propagates, and a failing cleanup delete is only
logged. -/
theorem snapshot_cleanup_invariant (env : BackupEnv) (job : BackupJob)
    (vmName : String) (hdry : job.dry_run = false)
    (hsnap : env.snapCreateOk vmName = true) :
    SnapEv.delete vmName (mkSnapName env.now) ∈
        (backupVMWithSnapshots env job vmName).2 ∧
    (∀ msg, env.transferOutcome vmName = some msg →
      (backupVMWithSnapshots env job vmName).1 = .error msg ∧
      ∀ cmsg, env.deleteRaises vmName = some cmsg →
        SnapEv.cleanupFailLog vmName (mkSnapName env.now) cmsg ∈
          (backupVMWithSnapshots env job vmName).2) := by
  simp only [backupVMWithSnapshots, hsnap, hdry]
  constructor
  · cases ht : env.transferOutcome vmName with
    | some msg => cases hd : env.deleteRaises vmName <;> simp [ht, hd]
    | none => cases hd : env.deleteRaises vmName <;> simp [ht, hd]
  · intro msg hmsg
    cases hd : env.deleteRaises vmName <;> simp [hmsg, hd]

/-- Witness for claim C2: on the error path the delete is attempted, the
cleanup failure is logged, and the original `"disk error"` propagates. -/
theorem snapshot_cleanup_invariant_witness :
    SnapEv.delete "vm1" (mkSnapName exEnv2.now) ∈
        (backupVMWithSnapshots exEnv2 exJob "vm1").2 ∧
      (backupVMWithSnapshots exEnv2 exJob "vm1").1 =
        Except.error "disk error" ∧
      SnapEv.cleanupFailLog "vm1" (mkSnapName exEnv2.now) "cleanup boom" ∈
        (backupVMWithSnapshots exEnv2 exJob "vm1").2 := by
  have h := snapshot_cleanup_invariant exEnv2 exJob "vm1" rfl rfl
  exact ⟨h.1, (h.2 "disk error" rfl).1,
    (h.2 "disk error" rfl).2 "cleanup boom" rfl⟩

/-- Claim C7 (counterexample to the claim as stated): in `dry_run` mode the
`create_snapshot` call IS made — the create event appears in the trace of a
dry-run execution, where the claim says no create call happens.  (The
repository's own integration test asserts `create_snapshot` is called once
in a dry-run workflow.) -/
theorem dry_run_still_creates_snapshot_cex :
    SnapEv.create "vm1" (mkSnapName exEnv.now) ∈
      (backupVMWithSnapshots exEnv exJobDry "vm1").2 := by
  decide

/-- Claim C7 (amended): under the snapshot strategy with `dry_run = true`
the snapshot create call is still made, with naming identical to normal
mode; the success-path deletion is what `dry_run` skips (the snapshot stays
recorded as created), and that deletion is skipped only in `dry_run`
mode. -/
theorem dry_run_snapshot_behavior (env : BackupEnv) (job : BackupJob)
    (vmName : String) (hsnap : env.snapCreateOk vmName = true)
    (htr : env.transferOutcome vmName = none) :
    SnapEv.create vmName (mkSnapName env.now) ∈
        (backupVMWithSnapshots env job vmName).2 ∧
    (job.dry_run = true →
      (backupVMWithSnapshots env job vmName).1 =
        .ok { snapshots_created := [mkSnapName env.now],
              files_backed_up := env.filesFor vmName,
              size_bytes := env.sizeFor vmName,
              transferred_bytes := env.transferredFor vmName,
              method := "snapshot" } ∧
      SnapEv.delete vmName (mkSnapName env.now) ∉
        (backupVMWithSnapshots env job vmName).2) ∧
    (job.dry_run = false →
      SnapEv.delete vmName (mkSnapName env.now) ∈
        (backupVMWithSnapshots env job vmName).2) := by
  simp only [backupVMWithSnapshots, hsnap, htr]
  refine ⟨?_, ?_, ?_⟩
  · cases hdr : job.dry_run <;>
      [cases hd : env.deleteRaises vmName <;> simp [hdr, hd]; simp [hdr]]
  · intro hdr
    simp [hdr]
  · intro hdr
    cases hd : env.deleteRaises vmName <;> simp [hdr, hd]

/-- Witness for the amended claim C7: a concrete dry-run execution creates
the snapshot, returns it as still created, and never deletes it. -/
theorem dry_run_snapshot_behavior_witness :
    SnapEv.create "vm1" (mkSnapName exEnv.now) ∈
        (backupVMWithSnapshots exEnv exJobDry "vm1").2 ∧
      (backupVMWithSnapshots exEnv exJobDry "vm1").1 =
        Except.ok
          { snapshots_created := [mkSnapName exEnv.now],
            files_backed_up := exEnv.filesFor "vm1",
            size_bytes := exEnv.sizeFor "vm1",
            transferred_bytes := exEnv.transferredFor "vm1",
            method := "snapshot" } ∧
      SnapEv.delete "vm1" (mkSnapName exEnv.now) ∉
        (backupVMWithSnapshots exEnv exJobDry "vm1").2 := by
  have h := dry_run_snapshot_behavior exEnv exJobDry "vm1" rfl rfl
  exact ⟨h.1, (h.2.1 rfl).1, (h.2.1 rfl).2⟩

/-- Claim C9: `success_rate` is `0` on an empty per-VM map and otherwise
`100 * successes / total` (exact rational arithmetic). -/
theorem success_rate_spec (r : BackupResult) :
    (r.vm_results = [] → r.success_rate = 0) ∧
    (r.vm_results ≠ [] →
      r.success_rate =
        100 * ((r.vm_results.countP fun p => p.2.status == "success" : Nat) : ℚ) /
          ((r.vm_results.length : Nat) : ℚ)) := by
  constructor
  · intro h
    simp [BackupResult.success_rate, h]
  · intro h
    simp only [BackupResult.success_rate, if_neg h]
    ring

/-- Witness for claim C9: one success out of two entries gives 50%. -/
theorem success_rate_spec_witness : exResult.success_rate = 50 := by
  have h := (success_rate_spec exResult).2 (by decide)
  have hc : (exResult.vm_results.countP fun p => p.2.status == "success") = 1 :=
    rfl
  have hl : exResult.vm_results.length = 2 := rfl
  rw [h, hc, hl]
  norm_num

/-- Claim C5: every dispatch of `execute_scheduled_backup` with a valid
recurrence spec builds (if it gets that far) a job with
`use_snapshots = true` and `compress = true`, and — whether the underlying
backup completes, fails, or raises — returns with `last_run` set to the
dispatch time, `next_run` recomputed, `status` back to `"scheduled"`, the
schedule set saved by the `finally` block, and no exception escaping. -/
theorem execute_scheduled_backup_spec (sb : ScheduledBackup) (jobId : String)
    (tsec : Nat) (now : DateTime) (execOutcome : Except String String)
    (nr : DateTime)
    (hvalid : calcNextRun sb.schedule_type sb.schedule_time now = some nr) :
    (∀ job, (execute_scheduled_backup sb jobId tsec now execOutcome).jobBuilt =
        some job → job.use_snapshots = true ∧ job.compress = true) ∧
    (execute_scheduled_backup sb jobId tsec now execOutcome).backup.last_run =
      some now ∧
    (execute_scheduled_backup sb jobId tsec now execOutcome).backup.next_run =
      some nr ∧
    (execute_scheduled_backup sb jobId tsec now execOutcome).backup.status =
      "scheduled" ∧
    (execute_scheduled_backup sb jobId tsec now execOutcome).saved = true ∧
    (execute_scheduled_backup sb jobId tsec now execOutcome).raisedOut =
      false := by
  cases hm : BackupMode.ofValue sb.backup_mode with
  | none =>
    simp [execute_scheduled_backup, hm, hvalid]
  | some mode =>
    cases execOutcome with
    | error e =>
      simp [execute_scheduled_backup, hm, hvalid, create_backup_job]
    | ok v =>
      simp [execute_scheduled_backup, hm, hvalid, create_backup_job]

/-- Witness for claim C5: dispatching the concrete daily definition with a
completed backup result leaves it rescheduled with the recomputed
`next_run` and saved. -/
theorem execute_scheduled_backup_spec_witness :
    (execute_scheduled_backup exDef1 "J1" 42 ⟨2025, 1, 5, 4, 0, 0, 0⟩
        (Except.ok "completed")).backup.status = "scheduled" ∧
      (execute_scheduled_backup exDef1 "J1" 42 ⟨2025, 1, 5, 4, 0, 0, 0⟩
        (Except.ok "completed")).backup.next_run =
        some ⟨2025, 1, 6, 2, 0, 0, 0⟩ ∧
      (execute_scheduled_backup exDef1 "J1" 42 ⟨2025, 1, 5, 4, 0, 0, 0⟩
        (Except.ok "completed")).saved = true := by
  have h := execute_scheduled_backup_spec exDef1 "J1" 42
    ⟨2025, 1, 5, 4, 0, 0, 0⟩ (Except.ok "completed")
    ⟨2025, 1, 6, 2, 0, 0, 0⟩ (by decide)
  exact ⟨h.2.2.2.1, h.2.2.1, h.2.2.2.2.1⟩

end KvmBackup
